import Mathlib

/-!
Shallow embedding of the authentication/session subsystem of the
art-collector application (Next.js + Supabase).  Times are natural
numbers of milliseconds since the epoch.  The relational store is a
record of lists of rows; PostgREST's `.single()` / `.maybeSingle()`
row-shaping is modelled explicitly.  Randomly generated values
(bcrypt salts, OTP codes, rotation UUIDs, fresh user ids) are passed
as explicit arguments to the operations that generate them.
-/

namespace ArtCollector

/-- A JavaScript number that may be NaN, as produced by
Date coercions in the middleware.  Comparisons involving NaN are false. -/
inductive JsNum where
  | nan : JsNum
  | num (n : Nat) : JsNum
deriving DecidableEq, Repr

/-- JS `a <= b` on possibly-NaN numbers. -/
def JsNum.jsLe : JsNum → JsNum → Bool
  | .num a, .num b => a ≤ b
  | _, _ => false

/-- JS `a > b` on possibly-NaN numbers. -/
def JsNum.jsGt : JsNum → JsNum → Bool
  | .num a, .num b => b < a
  | _, _ => false

/-- Payload of a JSON web token as minted by this code base:
a `userId` claim and, for refresh tokens, a `jti` rotation identifier. -/
structure JwtPayload where
  userId : String
  jti : Option String
deriving DecidableEq, Repr

/-- A signed JWT.  The signature is modelled by recording the signing
secret inside the token; verification checks it against the verifier's
secret.  `iat`/`exp` are milliseconds. -/
structure Jwt where
  payload : JwtPayload
  iat : Nat
  exp : Nat
  secret : String
deriving DecidableEq, Repr

/-- `jwt.sign(payload, secret, \x7b expiresIn: ttl \x7d)`:
the token expires `ttlMs` after issuance. -/
def jwtSign (payload : JwtPayload) (secret : String) (now ttlMs : Nat) : Jwt :=
  { payload := payload, iat := now, exp := now + ttlMs, secret := secret }

/-- `jose.jwtVerify(token, secret)` at time `now`: succeeds exactly when
the signature matches and the `exp` claim is still in the future
(jose rejects a token whose `exp` is less than or equal to the clock). -/
def jwtVerifyM (t : Jwt) (secret : String) (now : Nat) : Option JwtPayload :=
  if t.secret = secret ∧ now < t.exp then some t.payload else none

/-- Value of a named cookie: absent, the empty string written on logout,
a serialized JWT, or some other (malformed) string. -/
inductive CookieVal where
  | missing : CookieVal
  | cleared : CookieVal
  | tok (t : Jwt) : CookieVal
  | malformed : CookieVal
deriving DecidableEq, Repr

/-- JS truthiness of `cookies.get(name)?.value`: both an absent cookie
(undefined) and the cleared empty string are falsy. -/
def CookieVal.present : CookieVal → Bool
  | .missing => false
  | .cleared => false
  | .tok _ => true
  | .malformed => true

/-- The client's cookie jar: the two named credentials. -/
structure Cookies where
  access : CookieVal
  refresh : CookieVal
deriving DecidableEq, Repr

/-- A bcrypt hash is modelled as the (salt, plaintext) pair produced by
`bcrypt.hash(password, salt)`; this keeps the hash injective per salt. -/
structure BcryptHash where
  salt : Nat
  pw : String
deriving DecidableEq, Repr

/-- `bcrypt.compare(plaintext, hash)`. -/
def bcryptCompare (plaintext : String) (h : BcryptHash) : Bool :=
  h.pw == plaintext

/-- Row of the `users` table. -/
structure UserRow where
  id : String
  email : String
  password_hash : BcryptHash
  email_verified : Bool
  twofa_enabled : Bool
deriving DecidableEq, Repr

/-- Row of the `login_attempts` table, keyed by email. -/
structure LoginAttemptRow where
  email : String
  attempts : Nat
  last_attempt_at : Option Nat
  locked_until : Option Nat
deriving DecidableEq, Repr

/-- Row of the `refresh_tokens` table.  `expires_at` is a nullable
column (the application's inserts never set it, leaving it NULL). -/
structure RefreshTokenRow where
  id : String
  user_id : String
  revoked : Bool
  created_at : Nat
  expires_at : Option Nat
deriving DecidableEq, Repr

/-- Row of the `email_verifications` table (both 6-digit OTPs and
email-verification link tokens share this table). -/
structure VerifRow where
  token : Nat
  user_id : String
  used : Bool
  expires_at : Nat
deriving DecidableEq, Repr

/-- The relational store. -/
structure Db where
  users : List UserRow
  login_attempts : List LoginAttemptRow
  refresh_tokens : List RefreshTokenRow
  email_verifications : List VerifRow
deriving DecidableEq, Repr

/-- Data returned by PostgREST `.single()`: present exactly when the
query matched exactly one row (zero or several rows set the error and
leave `data` null). -/
def singleRow {α : Type} : List α → Option α
  | [x] => some x
  | _ => none

/-- Error flag of PostgREST `.single()`. -/
def singleErr {α : Type} (l : List α) : Bool :=
  l.length != 1

/-- Data returned by `.maybeSingle()` when the caller discards the
error object: null on zero rows and on the several-rows error. -/
def maybeSingleData {α : Type} : List α → Option α
  | [x] => some x
  | _ => none

/-- Error flag of `.maybeSingle()`: set only when several rows match. -/
def maybeSingleErr {α : Type} (l : List α) : Bool :=
  1 < l.length

/-- ASCII lowercasing of one character (JS `toLowerCase` on the ASCII
range). -/
def lowerChar (c : Char) : Char :=
  if 'A' ≤ c ∧ c ≤ 'Z' then Char.ofNat (c.toNat + 32) else c

/-- Whitespace characters removed by JS `trim()`. -/
def isSpaceChar (c : Char) : Bool :=
  c == ' ' || c == '\t' || c == '\n' || c == '\r'

/-- JS `trim()`: strip leading and trailing whitespace. -/
def trimList (l : List Char) : List Char :=
  ((l.dropWhile isSpaceChar).reverse.dropWhile isSpaceChar).reverse

/-- `email.trim().toLowerCase()` as applied by `validateUser`. -/
def normalize (s : String) : String :=
  String.mk ((trimList s.toList).map lowerChar)

/-- JS `pathname.startsWith(route)`. -/
def startsWithStr (s p : String) : Bool :=
  p.toList.isPrefixOf s.toList

/-- Split a character list on a separator character (JS `split(sep)`). -/
def splitChar (sep : Char) : List Char → List (List Char)
  | [] => [[]]
  | c :: rest =>
    let r := splitChar sep rest
    if c == sep then [] :: r
    else
      match r with
      | h :: tl => (c :: h) :: tl
      | [] => [[c]]

/-- Characters allowed anywhere in the local part of an address by the
zod email pattern. -/
def emailLocalChar (c : Char) : Bool :=
  c.isAlphanum || c == '_' || c == '+' || c == '-' || c == '.' || c == Char.ofNat 39

/-- Characters allowed as the final character of the local part. -/
def emailLocalLastChar (c : Char) : Bool :=
  c.isAlphanum || c == '_' || c == '+' || c == '-'

/-- No two consecutive dots. -/
def noDoubleDot : List Char → Bool
  | '.' :: '.' :: _ => false
  | _ :: rest => noDoubleDot rest
  | [] => true

/-- Local part of an address per the zod pattern: nonempty, drawn from
the local alphabet, no leading dot, no double dot, and the final
character is not a dot or apostrophe. -/
def emailLocalOk (s : List Char) : Bool :=
  match s with
  | [] => false
  | c :: _ =>
    c != '.' && s.all emailLocalChar && noDoubleDot s &&
      emailLocalLastChar (s.getLast!)

/-- A non-final domain label: a leading alphanumeric character followed
by alphanumerics or hyphens. -/
def emailLabelOk (s : List Char) : Bool :=
  match s with
  | [] => false
  | c :: rest => c.isAlphanum && rest.all (fun d => d.isAlphanum || d == '-')

/-- Final top-level label: at least two letters. -/
def emailTldOk (s : List Char) : Bool :=
  2 ≤ s.length && s.all Char.isAlpha

/-- Domain part: one or more labels then a top-level label. -/
def emailDomainOk (s : List Char) : Bool :=
  match splitChar '.' s with
  | [] => false
  | [_] => false
  | parts => (parts.dropLast).all emailLabelOk && emailTldOk parts.getLast!

/-- Model of zod `z.email()` (its default pattern): a single `@` between
a valid local part and a valid domain. -/
def emailOk (s : String) : Bool :=
  match splitChar '@' s.toList with
  | [lo, dom] => emailLocalOk lo && emailDomainOk dom
  | _ => false

/-- `loginDetailsSchema` / `passwordChangeSchema` password rule:
at least 8 characters, at least one digit and one special character. -/
def passwordOk (p : String) : Bool :=
  8 ≤ p.toList.length && p.toList.any Char.isDigit &&
    p.toList.any (fun c => ("!@#$%^&*".toList).contains c)

/-- Access-token TTL used by `generateLoginCookies` (`expiresIn: "15m"`). -/
def generateLoginCookiesAccessTtlMs : Nat := 15 * 60 * 1000

/-- Refresh-token TTL used by `generateLoginCookies` (`expiresIn: "14d"`). -/
def generateLoginCookiesRefreshTtlMs : Nat := 14 * 24 * 60 * 60 * 1000

/-- Access-token TTL used by `refreshAccessToken` (`expiresIn: "15s"`). -/
def refreshAccessTokenAccessTtlMs : Nat := 15 * 1000

/-- Refresh-token TTL used by `refreshAccessToken` (`expiresIn: "10m"`). -/
def refreshAccessTokenRefreshTtlMs : Nat := 10 * 60 * 1000

/-- Access-token TTL used by the middleware rotation path (`"15m"`). -/
def middlewareAccessTtlMs : Nat := 15 * 60 * 1000

/-- Refresh-token TTL used by the middleware rotation path (`"14d"`). -/
def middlewareRefreshTtlMs : Nat := 14 * 24 * 60 * 60 * 1000

/-- OTP / email-verification token TTL (5 minutes). -/
def verificationTtlMs : Nat := 5 * 60 * 1000

/-- Result of `createUser`. -/
inductive CreateRes where
  | err (msg : String) : CreateRes
  | ok (otp : Nat) (email : String) : CreateRes
deriving DecidableEq, Repr

/-- Result of `validateUser`. -/
inductive LoginRes where
  | err (msg : String) : LoginRes
  | ok (otp : Nat) (email : String) (twofa : Bool) : LoginRes
deriving DecidableEq, Repr

/-- Result of `generateLoginCookies`. -/
structure GenRes where
  success : Bool
  error : Option String
deriving DecidableEq, Repr

/-- Result of `refreshAccessToken`. -/
structure RefreshRes where
  success : Bool
  userId : Option String
  error : Option String
deriving DecidableEq, Repr

/-- Result of `validateOTP`. -/
inductive Res2 where
  | ok : Res2
  | err (msg : String) : Res2
deriving DecidableEq, Repr

/-- Result of `validateEmail` (it returns an `ok`/`reason` shape). -/
inductive EmailRes where
  | ok : EmailRes
  | err (reason : String) : EmailRes
deriving DecidableEq, Repr

/-- `createUser(formData)`: signup.  The bcrypt salt, the fresh user id
and the random 6-digit verification code are passed explicitly. -/
def createUser (db : Db) (email password password_confirm : Option String)
    (salt : Nat) (uid : String) (otp : Nat) (now : Nat) : CreateRes × Db :=
  match email, password, password_confirm with
  | some e, some p, some pc =>
    if e = "" || p = "" || pc = "" then (.err "Missing required fields", db)
    else if p ≠ pc then (.err "Passwords do not match", db)
    else if ¬(emailOk e && passwordOk p) then
      (.err "Password: 8+ chars, incl. 1 number & 1 special character. Email: valid format.", db)
    else
      let dupRows := db.users.filter (fun u => u.email == e)
      match maybeSingleData dupRows with
      | some _ => (.err "Email already in use", db)
      | none =>
        if maybeSingleErr dupRows then (.err "Error checking email duplicates", db)
        else
          let newUser : UserRow :=
            { id := uid, email := e, password_hash := { salt := salt, pw := p },
              email_verified := false, twofa_enabled := false }
          let verifRow : VerifRow :=
            { token := otp, user_id := uid, used := false, expires_at := now + verificationTtlMs }
          let db1 := { db with users := db.users ++ [newUser],
                               email_verifications := db.email_verifications ++ [verifRow] }
          (.ok otp e, db1)
  | _, _, _ => (.err "Missing required fields", db)

/-- Modelled from the spec: the stored procedure `record_login_failure`
(the spec's atomic `upsertLoginAttemptOnFailure`) lives in the database,
not in this repository.  Per the spec it increments the failure count
(creating the row on a first failure) and sets `locked_until` to now
plus a lockout window once a failure-count threshold is crossed;
threshold 5 and a one-hour window are taken from the spec's lockout
scenario and the reference comment about a one-hour lock.
`bumpFailure` is the per-row step; `recordLoginFailure` applies it. -/
def bumpFailure (now : Nat) (r : LoginAttemptRow) : LoginAttemptRow :=
  { r with attempts := r.attempts + 1, last_attempt_at := some now,
           locked_until := if 5 ≤ r.attempts + 1
                           then some (now + 60 * 60 * 1000) else r.locked_until }

/-- Modelled from the spec: applies the failure bump to the row for
`e`, creating it on a first failure (see `bumpFailure`). -/
def recordLoginFailure (now : Nat) (db : Db) (e : String) : Db :=
  match db.login_attempts.filter (fun r => r.email == e) with
  | [] => { db with login_attempts := db.login_attempts ++
      [{ email := e, attempts := 1, last_attempt_at := some now, locked_until := none }] }
  | _ => { db with login_attempts :=
      db.login_attempts.map (fun r => if r.email == e then bumpFailure now r else r) }

/-- The part of `validateUser` after the lockout gate: fetch the user by
(normalized) email, compare passwords, record a failure or reset the
attempt counter and issue a fresh OTP row. -/
def validateUserChecked (db : Db) (e p : String) (now otp : Nat) : LoginRes × Db :=
  match maybeSingleData (db.users.filter (fun u => u.email == e)) with
  | none => (.err "No user with that email", db)
  | some u =>
    if bcryptCompare p u.password_hash then
      let resetRow := fun (r : LoginAttemptRow) =>
        if r.email == e
        then { r with attempts := 0, locked_until := none, last_attempt_at := some now }
        else r
      let newVerif : VerifRow :=
        { token := otp, user_id := u.id, used := false, expires_at := now + verificationTtlMs }
      let db1 := { db with login_attempts := db.login_attempts.map resetRow }
      let db2 := { db1 with email_verifications := db1.email_verifications ++ [newVerif] }
      (.ok otp u.email u.twofa_enabled, db2)
    else
      (.err "Email or password is incorrect.", recordLoginFailure now db e)

/-- `validateUser(formData)`: login.  Normalizes the email
(trim + lowercase), applies the lockout gate, then checks credentials.
The random OTP is passed explicitly. -/
def validateUser (db : Db) (rawEmail password : Option String)
    (now otp : Nat) : LoginRes × Db :=
  match rawEmail, password with
  | some rawE, some p =>
    let e := normalize rawE
    if e = "" || p = "" then (.err "Missing required fields", db)
    else
      match maybeSingleData (db.login_attempts.filter (fun r => r.email == e)) with
      | some lr =>
        match lr.locked_until with
        | some t =>
          if now < t then
            (.err ("Too many attempts. Try again in ~" ++
              toString ((t - now + 59999) / 60000) ++ " min."), db)
          else validateUserChecked db e p now otp
        | none => validateUserChecked db e p now otp
      | none => validateUserChecked db e p now otp
  | _, _ => (.err "Missing required fields", db)

/-- `generateLoginCookies(email)`: mint the access/refresh pair for the
user with that (raw) email, set both cookies and insert the rotation row
(only `id` and `user_id` are set; `expires_at` stays NULL). -/
def generateLoginCookies (db : Db) (c : Cookies) (email : Option String)
    (secret : String) (now : Nat) (jti : String) : GenRes × Db × Cookies :=
  let rows := match email with
    | some e => db.users.filter (fun u => u.email == e)
    | none => []
  match maybeSingleData rows with
  | none => ({ success := false, error := some "User not found" }, db, c)
  | some u =>
    let accessToken := jwtSign { userId := u.id, jti := none } secret now
      generateLoginCookiesAccessTtlMs
    let refreshToken := jwtSign { userId := u.id, jti := some jti } secret now
      generateLoginCookiesRefreshTtlMs
    let c1 : Cookies := { access := .tok accessToken, refresh := .tok refreshToken }
    let db1 := { db with refresh_tokens := db.refresh_tokens ++
      [{ id := jti, user_id := u.id, revoked := false, created_at := now, expires_at := none }] }
    ({ success := true, error := none }, db1, c1)

/-- Mark every rotation row with the given id revoked
(`update(\x7b revoked: true \x7d).eq("id", jti)`). -/
def revokeById (l : List RefreshTokenRow) (jti : String) : List RefreshTokenRow :=
  l.map (fun r => if r.id == jti then { r with revoked := true } else r)

/-- `refreshAccessToken()`: verify the refresh cookie, cross-check its
rotation id against the store, then rotate: mint a new pair (access
15 s, refresh 10 min), set both cookies, insert the new rotation row and
revoke the presented one.  A missing payload `jti` is modelled as the
empty string (the store lookup then finds no row). -/
def refreshAccessToken (db : Db) (c : Cookies) (secret : String)
    (now : Nat) (jtiNew : String) : RefreshRes × Db × Cookies :=
  match c.refresh with
  | .missing => ({ success := false, userId := none, error := some "No refresh token" }, db, c)
  | .cleared => ({ success := false, userId := none, error := some "No refresh token" }, db, c)
  | .malformed => ({ success := false, userId := none, error := some "Invalid refresh token." }, db, c)
  | .tok t =>
    match jwtVerifyM t secret now with
    | none => ({ success := false, userId := none, error := some "Invalid refresh token." }, db, c)
    | some payload =>
      let userId := payload.userId
      let jti := payload.jti.getD ""
      let rows := db.refresh_tokens.filter (fun r => r.id == jti && r.user_id == userId)
      match singleRow rows with
      | none => ({ success := false, userId := none, error := some "Refresh token expired." }, db, c)
      | some row =>
        if row.revoked then
          ({ success := false, userId := none, error := some "Refresh token revoked." }, db, c)
        else
          let newAccess := jwtSign { userId := row.user_id, jti := none } secret now
            refreshAccessTokenAccessTtlMs
          let newRefresh := jwtSign { userId := row.user_id, jti := some jtiNew } secret now
            refreshAccessTokenRefreshTtlMs
          let c1 : Cookies := { access := .tok newAccess, refresh := .tok newRefresh }
          let newRow : RefreshTokenRow :=
            { id := jtiNew, user_id := userId, revoked := false, created_at := now, expires_at := none }
          let db1 := { db with refresh_tokens := db.refresh_tokens ++ [newRow] }
          let db2 := { db1 with refresh_tokens := revokeById db1.refresh_tokens jti }
          ({ success := true, userId := some userId, error := none }, db2, c1)

/-- `logoutUser()`: read the refresh cookie, unconditionally clear both
cookies, best-effort revoke the presented rotation id (verification or
store errors are swallowed — `storeOk = false` models a lost store
write), and redirect to the home route.  The returned string is the
redirect target. -/
def logoutUser (db : Db) (c : Cookies) (secret : String) (now : Nat)
    (storeOk : Bool) : String × Db × Cookies :=
  let refreshTok := c.refresh
  let c1 : Cookies := { access := .cleared, refresh := .cleared }
  if ¬ refreshTok.present then ("/", db, c1)
  else
    match refreshTok with
    | .tok t =>
      match jwtVerifyM t secret now with
      | some payload =>
        let jti := payload.jti.getD ""
        let db1 := if storeOk
          then { db with refresh_tokens := revokeById db.refresh_tokens jti }
          else db
        ("/", db1, c1)
      | none => ("/", db, c1)
    | _ => ("/", db, c1)

/-- `checkSignedIn()`: verify the access cookie and return its
`userId`, or null on any failure. -/
def checkSignedIn (c : Cookies) (secret : String) (now : Nat) : Option String :=
  match c.access with
  | .tok t =>
    match jwtVerifyM t secret now with
    | some payload => some payload.userId
    | none => none
  | _ => none

/-- `update(\x7b used: true \x7d).eq("token", otp)` on `email_verifications`. -/
def markVerifUsed (l : List VerifRow) (otp : Nat) : List VerifRow :=
  l.map (fun r => if r.token == otp then { r with used := true } else r)

/-- `update(\x7b email_verified: true, twofa_enabled: true \x7d).eq("id", uid)`. -/
def setUserVerified2fa (l : List UserRow) (uid : String) : List UserRow :=
  l.map (fun u => if u.id == uid then
    { u with email_verified := true, twofa_enabled := true } else u)

/-- `update(\x7b email_verified: true \x7d).eq("id", uid)`. -/
def setUserVerified (l : List UserRow) (uid : String) : List UserRow :=
  l.map (fun u => if u.id == uid then { u with email_verified := true } else u)

/-- `validateOTP(OTP, email)`: redeem a 6-digit code.  Both lookups use
`.single()`, whose error (zero or several matching rows) yields the
"Error fetching codes." outcome; the source's later null-data branches
("Code is incorrect." / "Error creating user.") are unreachable after
that check and are kept as the fallback arm. -/
def validateOTP (db : Db) (otp : Nat) (email : String) (now : Nat) : Res2 × Db :=
  let tokRows := db.email_verifications.filter (fun r => r.token == otp)
  let userRows := db.users.filter (fun u => u.email == email)
  if singleErr tokRows || singleErr userRows then (.err "Error fetching codes.", db)
  else
    match singleRow tokRows, singleRow userRows with
    | some ev, some u =>
      if ev.user_id != u.id then (.err "Code incorrect.", db)
      else if ev.used || decide (ev.expires_at < now) then (.err "Code has expired.", db)
      else
        let db1 := { db with email_verifications := markVerifUsed db.email_verifications otp }
        let db2 := { db1 with users := setUserVerified2fa db1.users u.id }
        (.ok, db2)
    | _, _ => (.err "Code is incorrect.", db)

/-- `validateEmail(token)`: redeem an email-verification token.  The
update step re-selects the updated row (`.select("user_id").single()`)
before flagging the user verified. -/
def validateEmail (db : Db) (tok : Nat) (now : Nat) : EmailRes × Db :=
  let tokRows := db.email_verifications.filter (fun r => r.token == tok)
  match singleRow tokRows with
  | none => (.err "No associated token.", db)
  | some ev =>
    if ev.used then (.err "Token has been used already.", db)
    else if decide (ev.expires_at < now) then (.err "Token has expired", db)
    else
      let db1 := { db with email_verifications := markVerifUsed db.email_verifications tok }
      let updatedRows := db1.email_verifications.filter (fun r => r.token == tok)
      match singleRow updatedRows with
      | none => (.err "Failed to update token", db1)
      | some updated =>
        let db2 := { db1 with users := setUserVerified db1.users updated.user_id }
        (.ok, db2)

/-- Outcome of the request-gating middleware: pass through, redirect to
home, pass through with two rotated cookies attached, or fall off the
end of the function (it returns `undefined`, so the request proceeds
with no response object). -/
inductive MwRes where
  | next : MwRes
  | redirectHome : MwRes
  | nextWithCookies (access refresh : Jwt) : MwRes
  | passUndefined : MwRes
deriving DecidableEq, Repr

/-- The protected path prefixes of the request gate. -/
def PROTECTED : List String := ["/3d-view", "/settings", "/collection"]

/-- An inbound request as seen by the middleware. -/
structure MwRequest where
  pathname : String
  cookies : Cookies
deriving DecidableEq, Repr

/-- JS `new Date(x).getTime()` applied to the nullable `expires_at`
column: PostgREST serializes SQL NULL as JSON null, and
`new Date(null)` is the epoch, so a NULL expiry coerces to 0. -/
def jsExpiryMs : Option Nat → JsNum
  | none => .num 0
  | some t => .num t

/-- Truthiness-and-verification of the access cookie inside the
middleware: present and verifying. -/
def accessPasses (v : CookieVal) (secret : String) (now : Nat) : Bool :=
  match v with
  | .tok t => (jwtVerifyM t secret now).isSome
  | _ => false

/-- `middleware(request)`: the request gate.  Non-protected paths pass;
a missing refresh cookie redirects; a verifying access token passes;
otherwise the refresh token is verified and cross-checked, the row's
`expires_at` is compared against the clock twice (`<= now` redirects,
`> now` rotates), and any thrown error redirects. -/
def middleware (db : Db) (req : MwRequest) (secret : String) (now : Nat)
    (jtiNew : String) : MwRes × Db :=
  if ¬ PROTECTED.any (fun route => startsWithStr req.pathname route) then (.next, db)
  else
    let access := req.cookies.access
    let refresh := req.cookies.refresh
    if ¬ refresh.present then (.redirectHome, db)
    else
      if accessPasses access secret now then (.next, db)
      else
        match refresh with
        | .tok t =>
          match jwtVerifyM t secret now with
          | none => (.redirectHome, db)
          | some payload =>
            let userId := payload.userId
            let jti := payload.jti.getD ""
            let rows := db.refresh_tokens.filter (fun r => r.id == jti && r.user_id == userId)
            match singleRow rows with
            | none => (.redirectHome, db)
            | some row =>
              let e := jsExpiryMs row.expires_at
              if e.jsLe (.num now) then (.redirectHome, db)
              else if e.jsGt (.num now) then
                let accessToken := jwtSign { userId := row.user_id, jti := some jtiNew }
                  secret now middlewareAccessTtlMs
                let refreshToken := jwtSign { userId := row.user_id, jti := some jtiNew }
                  secret now middlewareRefreshTtlMs
                let newRow : RefreshTokenRow :=
                  { id := jtiNew, user_id := userId, revoked := false,
                    created_at := now, expires_at := none }
                let db1 := { db with refresh_tokens := db.refresh_tokens ++ [newRow] }
                let db2 := { db1 with refresh_tokens := revokeById db1.refresh_tokens jti }
                (.nextWithCookies accessToken refreshToken, db2)
              else (.passUndefined, db)
        | _ => (.redirectHome, db)

/-- Concrete server-held signing secret for the example states. -/
def secret0 : String := "server-secret"

/-- Example user row. -/
def user1 : UserRow :=
  { id := "u1", email := "a@x.com", password_hash := { salt := 7, pw := "Abcd123!" },
    email_verified := true, twofa_enabled := false }

/-- Example access token for `user1`, minted at time 0. -/
def accessTok1 : Jwt :=
  jwtSign { userId := "u1", jti := none } secret0 0 generateLoginCookiesAccessTtlMs

/-- Example refresh token for `user1` with rotation id `j1`. -/
def refreshTok1 : Jwt :=
  jwtSign { userId := "u1", jti := some "j1" } secret0 0 generateLoginCookiesRefreshTtlMs

/-- The rotation row written for `refreshTok1` (only `id` and `user_id`
are set on insert, so `expires_at` is NULL). -/
def rtRow1 : RefreshTokenRow :=
  { id := "j1", user_id := "u1", revoked := false, created_at := 0, expires_at := none }

/-- Example store with one user and one active rotation row. -/
def dbR : Db :=
  { users := [user1], login_attempts := [], refresh_tokens := [rtRow1],
    email_verifications := [] }

/-- A lockout row for `user1`'s email: locked until t = 600000 ms. -/
def lockRow1 : LoginAttemptRow :=
  { email := "a@x.com", attempts := 5, last_attempt_at := some 0,
    locked_until := some 600000 }

/-- Store in which `user1` is currently locked out. -/
def dbLock : Db :=
  { users := [user1], login_attempts := [lockRow1], refresh_tokens := [],
    email_verifications := [] }

/-- A verification token that expires at exactly t = 5000 ms. -/
def verifRowBoundary : VerifRow :=
  { token := 123456, user_id := "u1", used := false, expires_at := 5000 }

/-- Store holding `verifRowBoundary`. -/
def dbOtpBoundary : Db :=
  { users := [user1], login_attempts := [], refresh_tokens := [],
    email_verifications := [verifRowBoundary] }

/-- An already-used verification token whose expiry is far in the future. -/
def verifRowUsed : VerifRow :=
  { token := 123456, user_id := "u1", used := true, expires_at := 999999 }

/-- Store holding `verifRowUsed`. -/
def dbOtpUsed : Db :=
  { users := [user1], login_attempts := [], refresh_tokens := [],
    email_verifications := [verifRowUsed] }

/-- A verification token whose user does not match `user1`. -/
def verifRowMismatch : VerifRow :=
  { token := 123456, user_id := "u2", used := false, expires_at := 999999 }

/-- Store holding `verifRowMismatch` together with `user1`. -/
def dbOtpMismatch : Db :=
  { users := [user1], login_attempts := [], refresh_tokens := [],
    email_verifications := [verifRowMismatch] }

/-- An unused verification token that expired at t = 1 ms. -/
def verifRowExpired : VerifRow :=
  { token := 123456, user_id := "u1", used := false, expires_at := 1 }

/-- Store holding `verifRowExpired`. -/
def dbOtpExpired : Db :=
  { users := [user1], login_attempts := [], refresh_tokens := [],
    email_verifications := [verifRowExpired] }

/-- The empty store. -/
def emptyDb : Db :=
  { users := [], login_attempts := [], refresh_tokens := [],
    email_verifications := [] }

/-- A protected-path request carrying a valid access token and a valid
refresh token. -/
def reqValidAccess : MwRequest :=
  { pathname := "/collection",
    cookies := { access := .tok accessTok1, refresh := .tok refreshTok1 } }

/-- An access token for `user1` that expired at t = 10 ms. -/
def expiredAccessTok : Jwt :=
  jwtSign { userId := "u1", jti := none } secret0 0 10

/-- A protected-path request whose access token fails verification but
whose refresh token is valid. -/
def reqStaleAccess : MwRequest :=
  { pathname := "/collection",
    cookies := { access := .tok expiredAccessTok, refresh := .tok refreshTok1 } }

/-- `.single()` returning data means the query matched exactly that row. -/
theorem singleRow_eq {α : Type} (l : List α) (x : α) (h : singleRow l = some x) :
    l = [x] := by
  match l with
  | [] => simp [singleRow] at h
  | [a] => simp [singleRow] at h; simp [h]
  | a :: b :: rest => simp [singleRow] at h

/-- Filtering commutes with a map that does not change the filtered
fields. -/
theorem filter_map_comm {α : Type} (f : α → α) (p : α → Bool) (l : List α)
    (hp : ∀ a, p (f a) = p a) : (l.map f).filter p = (l.filter p).map f := by
  induction l with
  | nil => rfl
  | cons a tl ih =>
    simp only [List.map_cons, List.filter_cons, hp a]
    cases h : p a <;> simp [ih]

/-- A successful `jwtVerifyM` returns exactly the token's payload, and
certifies the signature and that the expiry is in the future. -/
theorem jwtVerifyM_eq_some (t : Jwt) (secret : String) (now : Nat) (p : JwtPayload)
    (h : jwtVerifyM t secret now = some p) :
    p = t.payload ∧ t.secret = secret ∧ now < t.exp := by
  unfold jwtVerifyM at h
  split at h
  · next hcond => exact ⟨(Option.some.inj h).symm, hcond.1, hcond.2⟩
  · exact absurd h (by simp)

/-- C5: `logoutUser` never fails the client-visible operation: for every
initial cookie state (and whether or not the best-effort revocation
write reaches the store) it clears both the access and refresh cookies
and redirects to the home route. -/
theorem logoutUser_always_clears_and_redirects (db : Db) (c : Cookies)
    (secret : String) (now : Nat) (storeOk : Bool) :
    (logoutUser db c secret now storeOk).1 = "/" ∧
    (logoutUser db c secret now storeOk).2.2 =
      { access := .cleared, refresh := .cleared } := by
  unfold logoutUser
  cases hc : c.refresh with
  | missing => simp [CookieVal.present]
  | cleared => simp [CookieVal.present]
  | malformed => simp [CookieVal.present]
  | tok t =>
    simp only [CookieVal.present]
    cases hv : jwtVerifyM t secret now <;> simp

/-- C8: the token-minting call sites do not share one canonical pair of
TTL constants: `generateLoginCookies` and the middleware mint access
tokens for 15 minutes and refresh tokens for 14 days, while
`refreshAccessToken` mints access tokens for 15 seconds and refresh
tokens for 10 minutes (shorter than a day). -/
theorem ttlConstants_not_canonical :
    refreshAccessTokenAccessTtlMs = 15000 ∧
    refreshAccessTokenRefreshTtlMs = 600000 ∧
    generateLoginCookiesAccessTtlMs = 900000 ∧
    generateLoginCookiesRefreshTtlMs = 1209600000 ∧
    middlewareAccessTtlMs = generateLoginCookiesAccessTtlMs ∧
    middlewareRefreshTtlMs = generateLoginCookiesRefreshTtlMs ∧
    refreshAccessTokenAccessTtlMs ≠ generateLoginCookiesAccessTtlMs ∧
    refreshAccessTokenRefreshTtlMs ≠ generateLoginCookiesRefreshTtlMs ∧
    refreshAccessTokenRefreshTtlMs < 24 * 60 * 60 * 1000 := by
  refine ⟨rfl, rfl, rfl, rfl, rfl, rfl, ?_, ?_, ?_⟩ <;> decide

/-- C4 counterexample: on a protected path with a valid (far-from-expiry
checking is irrelevant: any verifying) access token and a valid refresh
token whose rotation row is active, the middleware passes the request
through unchanged: no cookies are rotated and the store — including the
unrevoked rotation row — is untouched. -/
theorem middleware_validAccess_counterexample :
    middleware dbR reqValidAccess secret0 1000 "j2" = (.next, dbR) ∧
    dbR.refresh_tokens = [rtRow1] ∧ rtRow1.revoked = false := by
  refine ⟨by decide, rfl, rfl⟩

/-- C10 counterexample: on a protected path whose access token fails
verification and whose refresh token matches a stored row with NULL
`expires_at` (the shape of every row this code inserts), the middleware
redirects to home — `new Date(null)` is the epoch, so the first expiry
comparison is true — rather than falling through without a response. -/
theorem middleware_nullExpiry_counterexample :
    middleware dbR reqStaleAccess secret0 1000 "j2" = (.redirectHome, dbR) ∧
    rtRow1.expires_at = none := by
  refine ⟨by decide, rfl⟩

/-- C3 counterexample: a verification token whose `expires_at` equals
the current instant — so its expiry is not in the future — is still
redeemed successfully (`validateOTP` only rejects strictly past
expiries). -/
theorem validateOTP_at_expiry_counterexample :
    verifRowBoundary.expires_at = 5000 ∧
    (validateOTP dbOtpBoundary 123456 "a@x.com" 5000).1 = .ok := by
  exact ⟨rfl, by decide⟩

/-- C6 counterexample: an already-used (but unexpired) code and an
expired (but unused) code produce the identical outcome
"Code has expired.", so `AlreadyUsed` and `Expired` are not given
distinct outcomes. -/
theorem validateOTP_conflates_used_and_expired :
    verifRowUsed.used = true ∧ (0 : Nat) ≤ verifRowUsed.expires_at ∧
    (validateOTP dbOtpUsed 123456 "a@x.com" 0).1 = .err "Code has expired." ∧
    verifRowExpired.used = false ∧ verifRowExpired.expires_at < 5000 ∧
    (validateOTP dbOtpExpired 123456 "a@x.com" 5000).1 = .err "Code has expired." := by
  refine ⟨rfl, by decide, by decide, rfl, by decide, by decide⟩

/-- C1: whenever the `login_attempts` row for the normalized email has
`locked_until` strictly in the future, `validateUser` refuses with the
lockout error reporting the ceiling of the remaining time in minutes —
for every password and every content of the `users` table, so in
particular also when the password is correct. -/
theorem validateUser_lockout_refusal (db : Db) (e p : String) (lr : LoginAttemptRow)
    (now otp t : Nat)
    (he : normalize e ≠ "") (hp : p ≠ "")
    (hrow : maybeSingleData (db.login_attempts.filter
      (fun r => r.email == normalize e)) = some lr)
    (hlu : lr.locked_until = some t) (hfut : now < t) :
    (validateUser db (some e) (some p) now otp).1 =
      .err ("Too many attempts. Try again in ~" ++
        toString ((t - now + 59999) / 60000) ++ " min.") := by
  simp only [validateUser]
  simp [he, hp, hrow, hlu, hfut]

/-- Witness for C1 at a concrete locked-out state. -/
theorem validateUser_lockout_refusal_witness :
    (validateUser dbLock (some "a@x.com") (some "Abcd123!") 0 111111).1 =
      .err "Too many attempts. Try again in ~10 min." := by
  have h := validateUser_lockout_refusal dbLock "a@x.com" "Abcd123!" lockRow1 0 111111 600000
    (by decide) (by decide) (by decide) rfl (by decide)
  rw [h]
  decide

/-- C7: token round trip.  A successful `generateLoginCookies` stores an
access cookie for the looked-up user; `checkSignedIn` (the verifying
reader) recovers exactly that user id while the access TTL has not
elapsed and fails closed after it has elapsed — and, generally, for
every user id and TTL, a token minted by the codec verifies to its
`userId` before `ttl` elapses and to `Invalid` after. -/
theorem tokenCodec_roundtrip (db : Db) (c : Cookies) (e secret jti : String)
    (w : UserRow) (iat now : Nat)
    (hu : maybeSingleData (db.users.filter (fun x => x.email == e)) = some w) :
    (generateLoginCookies db c (some e) secret iat jti).1.success = true ∧
    (now < iat + generateLoginCookiesAccessTtlMs →
      checkSignedIn (generateLoginCookies db c (some e) secret iat jti).2.2 secret now
        = some w.id) ∧
    (iat + generateLoginCookiesAccessTtlMs < now →
      checkSignedIn (generateLoginCookies db c (some e) secret iat jti).2.2 secret now
        = none) ∧
    (∀ (uid s : String) (i ttl n : Nat),
      (n < i + ttl →
        jwtVerifyM (jwtSign { userId := uid, jti := none } s i ttl) s n =
          some { userId := uid, jti := none }) ∧
      (i + ttl < n →
        jwtVerifyM (jwtSign { userId := uid, jti := none } s i ttl) s n = none)) := by
  refine ⟨?_, ?_, ?_, ?_⟩
  · simp [generateLoginCookies, hu]
  · intro hlt
    simp [generateLoginCookies, hu, checkSignedIn, jwtVerifyM, jwtSign, hlt]
  · intro hgt
    have hgt' : ¬ (now < iat + generateLoginCookiesAccessTtlMs) := by omega
    simp [generateLoginCookies, hu, checkSignedIn, jwtVerifyM, jwtSign, hgt']
  · intro uid s i ttl n
    constructor
    · intro hlt
      simp [jwtVerifyM, jwtSign, hlt]
    · intro hgt
      have hgt' : ¬ (n < i + ttl) := by omega
      simp [jwtVerifyM, jwtSign, hgt']

/-- Witness for C7 at a concrete user and times on both sides of the
TTL. -/
theorem tokenCodec_roundtrip_witness :
    checkSignedIn (generateLoginCookies dbR { access := .missing, refresh := .missing }
      (some "a@x.com") secret0 0 "j9").2.2 secret0 1000 = some "u1" ∧
    checkSignedIn (generateLoginCookies dbR { access := .missing, refresh := .missing }
      (some "a@x.com") secret0 0 "j9").2.2 secret0 1000000 = none := by
  constructor
  · exact (tokenCodec_roundtrip dbR { access := .missing, refresh := .missing }
      "a@x.com" secret0 "j9" user1 0 1000 (by decide)).2.1 (by decide)
  · exact (tokenCodec_roundtrip dbR { access := .missing, refresh := .missing }
      "a@x.com" secret0 "j9" user1 0 1000000 (by decide)).2.2.1 (by decide)

/-- C2: refresh rotation is single-use.  If a call to
`refreshAccessToken` succeeds, it has already inserted the new rotation
row and revoked the presented rotation id in the returned store, so a
second call presenting the same refresh token fails (with the revoked
error, or the invalid error if the token has meanwhile expired) — never
two successes. -/
theorem refreshAccessToken_single_use (db : Db) (c c' : Cookies) (t : Jwt) (jt : String)
    (secret : String) (now1 now2 : Nat) (j1 j2 : String)
    (hc : c.refresh = .tok t) (hc' : c'.refresh = .tok t)
    (hjti : t.payload.jti = some jt) (hfresh : j1 ≠ jt)
    (hsucc : (refreshAccessToken db c secret now1 j1).1.success = true) :
    (refreshAccessToken (refreshAccessToken db c secret now1 j1).2.1 c' secret now2 j2).1.success
        = false ∧
    ((refreshAccessToken (refreshAccessToken db c secret now1 j1).2.1 c' secret now2 j2).1.error
        = some "Refresh token revoked." ∨
     (refreshAccessToken (refreshAccessToken db c secret now1 j1).2.1 c' secret now2 j2).1.error
        = some "Invalid refresh token.") := by
  simp only [refreshAccessToken, hc] at hsucc ⊢
  cases hv : jwtVerifyM t secret now1 with
  | none => simp [hv] at hsucc
  | some payload =>
    obtain ⟨hpay, -, -⟩ := jwtVerifyM_eq_some t secret now1 payload hv
    subst hpay
    simp only [hv, hjti, Option.getD_some] at hsucc ⊢
    cases hrow : singleRow (db.refresh_tokens.filter
        (fun r => r.id == jt && r.user_id == t.payload.userId)) with
    | none => simp [hrow] at hsucc
    | some row =>
      simp only [hrow] at hsucc ⊢
      cases hrev : row.revoked with
      | true => simp [hrev] at hsucc
      | false =>
        simp only [hrev, Bool.false_eq_true, if_false] at hsucc ⊢
        have hfl : db.refresh_tokens.filter
            (fun r => r.id == jt && r.user_id == t.payload.userId) = [row] :=
          singleRow_eq _ _ hrow
        have hmem : row ∈ db.refresh_tokens.filter
            (fun r => r.id == jt && r.user_id == t.payload.userId) := by
          simp [hfl]
        have hpred : (row.id == jt && row.user_id == t.payload.userId) = true :=
          (List.mem_filter.mp hmem).2
        have hid : (row.id == jt) = true := by
          have h2 := hpred
          simp only [Bool.and_eq_true] at h2
          exact h2.1
        simp only [hc']
        cases hv2 : jwtVerifyM t secret now2 with
        | none => simp [hv2]
        | some p2 =>
          obtain ⟨hp2, -, -⟩ := jwtVerifyM_eq_some t secret now2 p2 hv2
          subst hp2
          simp only [hv2, hjti, Option.getD_some]
          have hcomm : ∀ a : RefreshTokenRow,
              ((if a.id == jt then { a with revoked := true } else a).id == jt &&
               (if a.id == jt then { a with revoked := true } else a).user_id
                  == t.payload.userId) =
              (a.id == jt && a.user_id == t.payload.userId) := by
            intro a
            split <;> rfl
          rw [revokeById, filter_map_comm _ _ _ hcomm, List.filter_append, hfl]
          have hid' : row.id = jt := by simpa using hid
          simp [hfresh, hid', singleRow]

/-- Witness for C2: a concrete double refresh with the same token yields
a failed second call. -/
theorem refreshAccessToken_single_use_witness :
    (refreshAccessToken
      (refreshAccessToken dbR { access := .missing, refresh := .tok refreshTok1 }
        secret0 1000 "j2").2.1
      { access := .missing, refresh := .tok refreshTok1 } secret0 2000 "j3").1.success
      = false :=
  (refreshAccessToken_single_use dbR
    { access := .missing, refresh := .tok refreshTok1 }
    { access := .missing, refresh := .tok refreshTok1 }
    refreshTok1 "j1" secret0 1000 2000 "j2" "j3"
    rfl rfl (by decide) (by decide) (by decide)).1

/-- C9: `createUser` stores the submitted email verbatim (no trim or
lowercasing) while `validateUser` normalizes its input before lookup, so
whenever the normalized form differs from the raw string, a signup
followed by a login with the identical input fails with the
no-such-user error (provided no other account already uses the
normalized address and it is not locked out). -/
theorem createUser_validateUser_case_mismatch (db : Db) (e p : String)
    (salt otp otp2 now now2 : Nat) (uid : String)
    (hne : normalize e ≠ e) (hnn : normalize e ≠ "")
    (hE : e ≠ "") (hP : p ≠ "")
    (hschema : (emailOk e && passwordOk p) = true)
    (hnodup : db.users.filter (fun u => u.email == e) = [])
    (hnouser : db.users.filter (fun u => u.email == normalize e) = [])
    (hnolock : db.login_attempts.filter (fun r => r.email == normalize e) = []) :
    (createUser db (some e) (some p) (some p) salt uid otp now).1 = .ok otp e ∧
    (validateUser (createUser db (some e) (some p) (some p) salt uid otp now).2
      (some e) (some p) now2 otp2).1 = .err "No user with that email" := by
  have hne' : (e == normalize e) = false := beq_eq_false_iff_ne.mpr (Ne.symm hne)
  constructor
  · simp [createUser, hE, hP, hschema, hnodup, maybeSingleData, maybeSingleErr]
  · simp [createUser, hE, hP, hschema, hnodup, maybeSingleData, maybeSingleErr,
      validateUser, hnn, validateUserChecked, List.filter_append, hnouser, hnolock, hne']

/-- Witness for C9: signing up with a mixed-case email and then logging
in with the identical input fails to find the user. -/
theorem createUser_validateUser_case_mismatch_witness :
    (createUser emptyDb (some "Alice@X.com") (some "Abcd123!") (some "Abcd123!")
      7 "u9" 123456 0).1 = .ok 123456 "Alice@X.com" ∧
    (validateUser (createUser emptyDb (some "Alice@X.com") (some "Abcd123!")
      (some "Abcd123!") 7 "u9" 123456 0).2
      (some "Alice@X.com") (some "Abcd123!") 1000 654321).1 =
      .err "No user with that email" :=
  createUser_validateUser_case_mismatch emptyDb "Alice@X.com" "Abcd123!" 7 123456 654321 0 1000
    "u9" (by decide) (by decide) (by decide) (by decide) (by decide) rfl rfl rfl

/-- C4 amended: when the presented access token verifies (however close
to expiry), the middleware allows the request with no rotation at all:
no cookies are attached and the store — including the presented
rotation row — is left unchanged.  Rotation happens only when the
access token is absent or fails verification. -/
theorem middleware_validAccess_no_rotation (db : Db) (req : MwRequest)
    (secret : String) (now : Nat) (jnew : String) (t : Jwt) (p : JwtPayload)
    (hacc : req.cookies.access = .tok t)
    (hver : jwtVerifyM t secret now = some p)
    (hrefresh : req.cookies.refresh.present = true) :
    middleware db req secret now jnew = (.next, db) := by
  unfold middleware
  split
  · rfl
  · simp [hrefresh, accessPasses, hacc, hver]

/-- Witness for the amended C4 at a concrete request. -/
theorem middleware_validAccess_no_rotation_witness :
    middleware dbR reqValidAccess secret0 1000 "j2" = (.next, dbR) :=
  middleware_validAccess_no_rotation dbR reqValidAccess secret0 1000 "j2" accessTok1
    { userId := "u1", jti := none } rfl (by decide) (by decide)

/-- C10 amended (store schema modelled from the spec: `expires_at` is a
nullable column of `refresh_tokens`): every rotation row this code
inserts leaves `expires_at` NULL; on the middleware's refresh path the
NULL expiry coerces to the epoch, so the first expiry comparison
(`<= Date.now()`) is true and the middleware redirects to home — it
attaches no rotated cookies and does not revoke the presented rotation
id. -/
theorem middleware_nullExpiry_redirects (db : Db) (req : MwRequest)
    (secret : String) (now : Nat) (jnew : String) (t : Jwt) (p : JwtPayload)
    (row : RefreshTokenRow)
    (hpath : PROTECTED.any (fun route => startsWithStr req.pathname route) = true)
    (hrt : req.cookies.refresh = .tok t)
    (hacc : accessPasses req.cookies.access secret now = false)
    (hver : jwtVerifyM t secret now = some p)
    (hrow : db.refresh_tokens.filter
      (fun r => r.id == p.jti.getD "" && r.user_id == p.userId) = [row])
    (hnull : row.expires_at = none) :
    middleware db req secret now jnew = (.redirectHome, db) := by
  have hpres : req.cookies.refresh.present = true := by
    rw [hrt]; rfl
  simp [middleware, hpath, hpres, hacc, hrt, hver, hrow, hnull, singleRow,
    jsExpiryMs, JsNum.jsLe]

/-- Witness for the amended C10 at a concrete stale-access request. -/
theorem middleware_nullExpiry_redirects_witness :
    middleware dbR reqStaleAccess secret0 1000 "j2" = (.redirectHome, dbR) :=
  middleware_nullExpiry_redirects dbR reqStaleAccess secret0 1000 "j2" refreshTok1
    { userId := "u1", jti := some "j1" } rtRow1
    (by decide) rfl (by decide) (by decide) (by decide) rfl

/-- C3 amended: a verification token is redeemable exactly once, and
only while its expiry has not passed — the code admits `expires_at`
equal to the current instant, i.e. redemption requires `used = false`
and `now ≤ expires_at` rather than strict futurity.  A successful
`validateOTP` marks the token used and applies the user side effect
(email_verified and twofa_enabled) before returning, and any subsequent
redeem of the same code fails; likewise `validateEmail` marks the token
used and sets email_verified, and a second redeem fails. -/
theorem verificationToken_single_use :
    (∀ (db : Db) (otp : Nat) (email : String) (now now2 : Nat) (ev : VerifRow) (u : UserRow),
      db.email_verifications.filter (fun r => r.token == otp) = [ev] →
      db.users.filter (fun w => w.email == email) = [u] →
      ev.user_id = u.id → ev.used = false → now ≤ ev.expires_at →
      (validateOTP db otp email now).1 = .ok ∧
      (((validateOTP db otp email now).2.email_verifications.filter
          (fun r => r.token == otp)).all (fun r => r.used)) = true ∧
      (((validateOTP db otp email now).2.users.filter (fun w => w.id == u.id)).all
          (fun w => w.email_verified && w.twofa_enabled)) = true ∧
      (validateOTP (validateOTP db otp email now).2 otp email now2).1 =
        .err "Code has expired.") ∧
    (∀ (db : Db) (tok now now2 : Nat) (ev : VerifRow),
      db.email_verifications.filter (fun r => r.token == tok) = [ev] →
      ev.used = false → now ≤ ev.expires_at →
      (validateEmail db tok now).1 = .ok ∧
      (((validateEmail db tok now).2.users.filter
          (fun w => w.id == ev.user_id)).all (fun w => w.email_verified)) = true ∧
      (validateEmail (validateEmail db tok now).2 tok now2).1 =
        .err "Token has been used already.") := by
  constructor
  · intro db otp email now now2 ev u htok huser hmatch hused hexp
    have hevmem : ev ∈ db.email_verifications.filter (fun r => r.token == otp) := by
      rw [htok]; exact List.mem_singleton_self ev
    have hevtok : (ev.token == otp) = true := (List.mem_filter.mp hevmem).2
    have hexp' : ¬ (ev.expires_at < now) := by omega
    have hcomm1 : ∀ a : VerifRow,
        ((if a.token == otp then { a with used := true } else a).token == otp)
          = (a.token == otp) := by
      intro a; split <;> rfl
    have hfilter1 : (markVerifUsed db.email_verifications otp).filter
        (fun r => r.token == otp) = [{ ev with used := true }] := by
      unfold markVerifUsed
      rw [filter_map_comm _ _ _ hcomm1, htok]
      have hevtok2 : ev.token = otp := by simpa using hevtok
      simp [hevtok2]
    have hcomm2 : ∀ a : UserRow,
        ((if a.id == u.id then
            { a with email_verified := true, twofa_enabled := true } else a).email == email)
          = (a.email == email) := by
      intro a; split <;> rfl
    have hfilter2 : (setUserVerified2fa db.users u.id).filter
        (fun w => w.email == email) =
        [{ u with email_verified := true, twofa_enabled := true }] := by
      unfold setUserVerified2fa
      rw [filter_map_comm _ _ _ hcomm2, huser]
      simp
    have hcomm3 : ∀ a : UserRow,
        ((if a.id == u.id then
            { a with email_verified := true, twofa_enabled := true } else a).id == u.id)
          = (a.id == u.id) := by
      intro a; split <;> rfl
    have hall : ((setUserVerified2fa db.users u.id).filter
        (fun w => w.id == u.id)).all (fun w => w.email_verified && w.twofa_enabled)
        = true := by
      unfold setUserVerified2fa
      rw [filter_map_comm _ _ _ hcomm3]
      simp only [List.all_eq_true]
      intro w hw
      obtain ⟨x, hx, rfl⟩ := List.mem_map.mp hw
      have hpx : (x.id == u.id) = true := (List.mem_filter.mp hx).2
      simp [hpx]
    refine ⟨?_, ?_, ?_, ?_⟩
    · simp [validateOTP, htok, huser, singleErr, singleRow, hmatch, hused, hexp']
    · simp [validateOTP, htok, huser, singleErr, singleRow, hmatch, hused, hexp',
        hfilter1]
    · simp only [validateOTP, htok, huser]
      simp [singleErr, singleRow, hmatch, hused, hexp', hall]
    · simp [validateOTP, htok, huser, singleErr, singleRow, hmatch, hused, hexp',
        hfilter1, hfilter2]
  · intro db tok now now2 ev htok hused hexp
    have hevmem : ev ∈ db.email_verifications.filter (fun r => r.token == tok) := by
      rw [htok]; exact List.mem_singleton_self ev
    have hevtok : (ev.token == tok) = true := (List.mem_filter.mp hevmem).2
    have hexp' : ¬ (ev.expires_at < now) := by omega
    have hcomm1 : ∀ a : VerifRow,
        ((if a.token == tok then { a with used := true } else a).token == tok)
          = (a.token == tok) := by
      intro a; split <;> rfl
    have hfilter1 : (markVerifUsed db.email_verifications tok).filter
        (fun r => r.token == tok) = [{ ev with used := true }] := by
      unfold markVerifUsed
      rw [filter_map_comm _ _ _ hcomm1, htok]
      have hevtok2 : ev.token = tok := by simpa using hevtok
      simp [hevtok2]
    have hcomm3 : ∀ a : UserRow,
        ((if a.id == ev.user_id then { a with email_verified := true } else a).id
            == ev.user_id) = (a.id == ev.user_id) := by
      intro a; split <;> rfl
    have hall : ((setUserVerified db.users ev.user_id).filter
        (fun w => w.id == ev.user_id)).all (fun w => w.email_verified) = true := by
      unfold setUserVerified
      rw [filter_map_comm _ _ _ hcomm3]
      simp only [List.all_eq_true]
      intro w hw
      obtain ⟨x, hx, rfl⟩ := List.mem_map.mp hw
      have hpx : (x.id == ev.user_id) = true := (List.mem_filter.mp hx).2
      simp [hpx]
    refine ⟨?_, ?_, ?_⟩
    · simp [validateEmail, htok, singleRow, hused, hexp', hfilter1]
    · simp [validateEmail, htok, singleRow, hused, hexp', hfilter1, hall]
    · simp [validateEmail, htok, singleRow, hused, hexp', hfilter1]

/-- Witness for C3: a concrete OTP redeem succeeds once and fails on
the second attempt, and likewise for the email-verification redeem. -/
theorem verificationToken_single_use_witness :
    (validateOTP dbOtpBoundary 123456 "a@x.com" 4000).1 = .ok ∧
    (validateOTP (validateOTP dbOtpBoundary 123456 "a@x.com" 4000).2
      123456 "a@x.com" 4000).1 = .err "Code has expired." ∧
    (validateEmail dbOtpBoundary 123456 1000).1 = .ok ∧
    (validateEmail (validateEmail dbOtpBoundary 123456 1000).2 123456 1000).1 =
      .err "Token has been used already." := by
  have h1 := verificationToken_single_use.1 dbOtpBoundary 123456 "a@x.com" 4000 4000
    verifRowBoundary user1 (by decide) (by decide) rfl rfl (by decide)
  have h2 := verificationToken_single_use.2 dbOtpBoundary 123456 1000 1000
    verifRowBoundary (by decide) rfl (by decide)
  exact ⟨h1.1, h1.2.2.2, h2.1, h2.2.2⟩

/-- C6 amended: `validateOTP` gives distinct outcomes to the no-matching
-row case ("Error fetching codes.", raised through the `.single()`
error) and to a user mismatch ("Code incorrect."), but it maps the
already-used and the expired cases to one and the same outcome
"Code has expired."; in all remaining cases it succeeds. -/
theorem validateOTP_outcome_map :
    (∀ (db : Db) (otp : Nat) (email : String) (now : Nat),
      db.email_verifications.filter (fun r => r.token == otp) = [] →
      (validateOTP db otp email now).1 = .err "Error fetching codes.") ∧
    (∀ (db : Db) (otp : Nat) (email : String) (now : Nat) (ev : VerifRow) (u : UserRow),
      db.email_verifications.filter (fun r => r.token == otp) = [ev] →
      db.users.filter (fun w => w.email == email) = [u] →
      ev.user_id ≠ u.id →
      (validateOTP db otp email now).1 = .err "Code incorrect.") ∧
    (∀ (db : Db) (otp : Nat) (email : String) (now : Nat) (ev : VerifRow) (u : UserRow),
      db.email_verifications.filter (fun r => r.token == otp) = [ev] →
      db.users.filter (fun w => w.email == email) = [u] →
      ev.user_id = u.id → (ev.used = true ∨ ev.expires_at < now) →
      (validateOTP db otp email now).1 = .err "Code has expired.") ∧
    (∀ (db : Db) (otp : Nat) (email : String) (now : Nat) (ev : VerifRow) (u : UserRow),
      db.email_verifications.filter (fun r => r.token == otp) = [ev] →
      db.users.filter (fun w => w.email == email) = [u] →
      ev.user_id = u.id → ev.used = false → now ≤ ev.expires_at →
      (validateOTP db otp email now).1 = .ok) := by
  refine ⟨?_, ?_, ?_, ?_⟩
  · intro db otp email now htok
    simp [validateOTP, htok, singleErr]
  · intro db otp email now ev u htok huser hne
    simp [validateOTP, htok, huser, singleErr, singleRow, hne]
  · intro db otp email now ev u htok huser hmatch hfail
    rcases hfail with hused | hexp
    · simp [validateOTP, htok, huser, singleErr, singleRow, hmatch, hused]
    · simp [validateOTP, htok, huser, singleErr, singleRow, hmatch, hexp]
  · intro db otp email now ev u htok huser hmatch hused hexp
    have hexp' : ¬ (ev.expires_at < now) := by omega
    simp [validateOTP, htok, huser, singleErr, singleRow, hmatch, hused, hexp']

/-- Witness for the amended C6: each of the four outcomes at a concrete
input. -/
theorem validateOTP_outcome_map_witness :
    (validateOTP dbR 999999 "a@x.com" 0).1 = .err "Error fetching codes." ∧
    (validateOTP dbOtpMismatch 123456 "a@x.com" 0).1 = .err "Code incorrect." ∧
    (validateOTP dbOtpUsed 123456 "a@x.com" 0).1 = .err "Code has expired." ∧
    (validateOTP dbOtpBoundary 123456 "a@x.com" 0).1 = .ok := by
  refine ⟨validateOTP_outcome_map.1 dbR 999999 "a@x.com" 0 (by decide),
    validateOTP_outcome_map.2.1 dbOtpMismatch 123456 "a@x.com" 0
      verifRowMismatch user1 (by decide) (by decide) (by decide),
    validateOTP_outcome_map.2.2.1 dbOtpUsed 123456 "a@x.com" 0
      verifRowUsed user1 (by decide) (by decide) rfl (Or.inl rfl),
    validateOTP_outcome_map.2.2.2 dbOtpBoundary 123456 "a@x.com" 0
      verifRowBoundary user1 (by decide) (by decide) rfl rfl (by decide)⟩

end ArtCollector
